import Mathlib

/-!
Verification development for the `bqplot` Map widget (`src/bqplot/map.py`).

The file shallowly embeds the widget: its declared configuration fields with
their defaults and synchronization flags, the two callback dispatchers, the
attribute store operations, and the inbound-message handler
`_handle_button_msg`.  Callbacks are opaque handles (natural numbers); an
invocation is recorded as the triple of the callback handle, the source
widget and the content dictionary handed to the callback.  The callback
dispatcher and the attribute-store validation live in external library code
that is not part of this repository, so those operations are modelled from
the specification, as marked in their doc comments.
-/

namespace BqplotMap

/-- A primitive value stored inside a dictionary-valued attribute. -/
inductive Leaf where
  | null : Leaf
  | num : Int → Leaf
  | str : String → Leaf
  | bool : Bool → Leaf
deriving DecidableEq, Repr

/-- A runtime value of a configuration field or of a message entry.
Numbers are modelled as integers (every numeric default in the source is
integral); `ref` is an opaque reference to a collaborator object such as a
`ColorScale`, `Axis` or tooltip widget; `pair` models the two-string tuple
of `map_data`. -/
inductive Value where
  | null : Value
  | num : Int → Value
  | str : String → Value
  | bool : Bool → Value
  | seq : List String → Value
  | map : List (String × Leaf) → Value
  | ref : Nat → Value
  | pair : String → String → Value
deriving DecidableEq, Repr

/-- The semantic kind declared for a configuration field. -/
inductive FieldKind where
  | number : FieldKind
  | string : FieldKind
  | boolean : FieldKind
  | orderedSeq : FieldKind
  | mapping : FieldKind
  | color : FieldKind
  | nullableRef : FieldKind
  | pairStrings : FieldKind
deriving DecidableEq, Repr

/-- A declared configuration field: name, kind, whether null is accepted,
default value, and the synchronized flag. -/
structure ConfigField where
  name : String
  kind : FieldKind
  nullable : Bool
  default : Value
  synchronized : Bool
deriving DecidableEq, Repr

/-- The twenty configuration fields declared on the `Map` class, in source
order, with the defaults written in the source.  The `Color` traits without
an explicit default and the `Instance` traits default to null, and null is
accepted on the reference-valued fields; those two facts come from the
external trait library and are modelled from the spec's field table. -/
def mapFields : List ConfigField :=
  [ ⟨"fig_margin", .mapping, false,
      .map [("top", .num 0), ("bottom", .num 20), ("left", .num 0), ("right", .num 0)], true⟩,
    ⟨"min_width", .number, false, .num 800, true⟩,
    ⟨"min_height", .number, false, .num 600, true⟩,
    ⟨"enable_hover", .boolean, false, .bool true, true⟩,
    ⟨"hovered_styles", .mapping, true,
      .map [("hovered_fill", .str "Orange"), ("hovered_stroke", .null),
            ("hovered_stroke_width", .num 5)], true⟩,
    ⟨"stroke_color", .color, true, .null, true⟩,
    ⟨"default_color", .color, true, .null, true⟩,
    ⟨"color", .mapping, false, .map [], true⟩,
    ⟨"color_scale", .nullableRef, true, .null, true⟩,
    ⟨"enable_select", .boolean, false, .bool true, true⟩,
    ⟨"selected", .orderedSeq, false, .seq [], true⟩,
    ⟨"selected_styles", .mapping, true,
      .map [("selected_fill", .str "Red"), ("selected_stroke", .null),
            ("selected_stroke_width", .num 5)], true⟩,
    ⟨"axis", .nullableRef, true, .null, true⟩,
    ⟨"tooltip_color", .color, false, .str "White", true⟩,
    ⟨"display_tooltip", .boolean, false, .bool true, true⟩,
    ⟨"text_data", .mapping, false, .map [], true⟩,
    ⟨"text_color", .color, false, .str "Black", true⟩,
    ⟨"tooltip_format", .string, false, .str ".2f", true⟩,
    ⟨"tooltip_widget", .nullableRef, true, .null, true⟩,
    ⟨"map_data", .pairStrings, false,
      .pair "worldmap" "nbextensions/bqplot/WorldMapData", true⟩ ]

/-- Whether a runtime value agrees with a declared kind (null handled
separately via the nullable flag). -/
def kindMatches : FieldKind → Value → Bool
  | .number, .num _ => true
  | .string, .str _ => true
  | .boolean, .bool _ => true
  | .orderedSeq, .seq _ => true
  | .mapping, .map _ => true
  | .color, .str _ => true
  | .nullableRef, .ref _ => true
  | .pairStrings, .pair _ _ => true
  | _, _ => false

/-- The widget state: current value of every configuration field. -/
def WidgetState : Type := List (String × Value)

instance : DecidableEq WidgetState := by
  unfold WidgetState
  infer_instance

/-- The state of a freshly constructed widget: every field at its default. -/
def initState : WidgetState := mapFields.map (fun f => (f.name, f.default))

/-- Read the current value of a field. -/
def getAttr (s : WidgetState) (name : String) : Option Value :=
  (List.lookup name s : Option Value)

/-- Error raised by the attribute store. -/
inductive SetError where
  | invalidFieldKind : SetError
  | unknownField : SetError
deriving DecidableEq, Repr

/-- Modelled from the spec: `AttributeStore.set` fails with
`InvalidFieldKind` if the value's runtime type disagrees with the field's
declared kind, except that null is accepted on nullable fields; no other
validation is performed.  The trait-validation code itself lives in the
external trait library, not in this repository. -/
def setAttr (s : WidgetState) (name : String) (v : Value) :
    Except SetError WidgetState :=
  match mapFields.find? (fun f => f.name == name) with
  | none => .error .unknownField
  | some f =>
    if kindMatches f.kind v || (v == .null && f.nullable) then
      .ok ((s : List (String × Value)).map (fun p => if p.1 == name then (p.1, v) else p))
    else
      .error .invalidFieldKind

/-- Callback handles are opaque: only equality matters, for removal. -/
abbrev Callback := Nat

/-- An ordered sequence of registered callback handles for one event kind. -/
structure CallbackDispatcher where
  callbacks : List Callback
deriving DecidableEq, Repr

/-- Modelled from the spec: `register_callback` appends the callback when
`remove` is false (duplicates allowed, no uniqueness check) and removes the
first occurrence equal to the callback when `remove` is true, a silent no-op
when absent.  The `CallbackDispatcher` class lives in the external widget
library, not in this repository. -/
def CallbackDispatcher.register_callback (d : CallbackDispatcher)
    (cb : Callback) (remove : Bool) : CallbackDispatcher :=
  if remove then ⟨d.callbacks.erase cb⟩ else ⟨d.callbacks ++ [cb]⟩

/-- Modelled from the spec: firing a dispatcher invokes every currently
registered callback with the source and payload, in registration order.  The
result records the invocation trace: one entry per callback call. -/
def CallbackDispatcher.dispatch {α : Type} (d : CallbackDispatcher)
    (src : α) (payload : List (String × Value)) :
    List (Callback × α × List (String × Value)) :=
  d.callbacks.map (fun cb => (cb, src, payload))

/-- The content dictionary of an inbound message. -/
def Content : Type := List (String × Value)

instance : DecidableEq Content := by
  unfold Content
  infer_instance

/-- `content.get(key, default)` of a Python dict: the stored value when the
key is present, the supplied default otherwise. -/
def Content.get (c : Content) (key : String) (dflt : Value) : Value :=
  match List.lookup key (c : List (String × Value)) with
  | some v => v
  | none => dflt

/-- The widget: one attribute store and the two callback dispatchers created
empty by `Map.__init__`. -/
structure Widget where
  state : WidgetState
  ctrl_click_handlers : CallbackDispatcher
  hover_handlers : CallbackDispatcher
deriving DecidableEq

/-- A freshly constructed `Map` widget: all defaults, empty dispatchers. -/
def Map.init : Widget :=
  ⟨initState, ⟨[]⟩, ⟨[]⟩⟩

/-- `Map.on_ctrl_click`: delegate registration to the ctrl-click dispatcher. -/
def Widget.on_ctrl_click (w : Widget) (cb : Callback) (remove : Bool) : Widget :=
  { w with ctrl_click_handlers := w.ctrl_click_handlers.register_callback cb remove }

/-- `Map.on_hover`: delegate registration to the hover dispatcher. -/
def Widget.on_hover (w : Widget) (cb : Callback) (remove : Bool) : Widget :=
  { w with hover_handlers := w.hover_handlers.register_callback cb remove }

/-- `Map._handle_button_msg`: read the `event` entry of the content with
default the empty string; on `click` fire the ctrl-click dispatcher, on
`hover` fire the hover dispatcher, passing `self` and the whole content
dictionary; otherwise do nothing.  Returns the (unmodified) widget together
with the trace of callback invocations. -/
def Widget.handle_button_msg (w : Widget) (content : Content) :
    Widget × List (Callback × Widget × List (String × Value)) :=
  let clickInvs :=
    if Content.get content "event" (.str "") = Value.str "click" then
      w.ctrl_click_handlers.dispatch w (content : List (String × Value))
    else []
  let hoverInvs :=
    if Content.get content "event" (.str "") = Value.str "hover" then
      w.hover_handlers.dispatch w (content : List (String × Value))
    else []
  (w, clickInvs ++ hoverInvs)

/-- Register a list of callbacks in order on an empty dispatcher, each with
`remove = false`. -/
def registerAll (cs : List Callback) : CallbackDispatcher :=
  cs.foldl (fun d c => d.register_callback c false) ⟨[]⟩

/-- Apply a sequence of register/remove operations to a dispatcher; an
operation is a callback handle paired with the `remove` flag. -/
def applyOps (d : CallbackDispatcher) : List (Callback × Bool) → CallbackDispatcher
  | [] => d
  | op :: rest => applyOps (d.register_callback op.1 op.2) rest

/-- The simulation of a register/remove sequence on a plain ordered
sequence: append on register, remove-first-occurrence on remove (a no-op
when the callback is absent). -/
def simOps (l : List Callback) : List (Callback × Bool) → List Callback
  | [] => l
  | op :: rest => simOps (if op.2 then l.erase op.1 else l ++ [op.1]) rest

/-- The inbound click message of the routing scenario. -/
def clickMsg : Content :=
  [("event", Value.str "click"), ("id", Value.str "FRA")]

/-- The inbound hover message of the hover scenario. -/
def hoverMsg : Content :=
  [("event", Value.str "hover"), ("id", Value.str "ESP")]

theorem foldl_register_append (cs : List Callback) (d : CallbackDispatcher) :
    (cs.foldl (fun e c => e.register_callback c false) d).callbacks
      = d.callbacks ++ cs := by
  induction cs generalizing d with
  | nil => simp
  | cons c rest ih =>
    rw [List.foldl_cons, ih]
    simp [CallbackDispatcher.register_callback]

theorem nullable_fields_characterization :
    ∀ f ∈ mapFields, (f.nullable = true ↔
      f.name ∈ ["hovered_styles", "stroke_color", "default_color", "color_scale",
                "selected_styles", "axis", "tooltip_widget"]) := by decide

/-- Claim C3: a freshly constructed widget returns exactly the declared
default for every one of the twenty configuration fields before any set
call (numbers are modelled as integers, so 800.0 appears as 800). -/
theorem C3_default_state :
    getAttr Map.init.state "fig_margin"
      = some (.map [("top", .num 0), ("bottom", .num 20), ("left", .num 0), ("right", .num 0)])
    ∧ getAttr Map.init.state "min_width" = some (.num 800)
    ∧ getAttr Map.init.state "min_height" = some (.num 600)
    ∧ getAttr Map.init.state "enable_hover" = some (.bool true)
    ∧ getAttr Map.init.state "hovered_styles"
      = some (.map [("hovered_fill", .str "Orange"), ("hovered_stroke", .null),
                    ("hovered_stroke_width", .num 5)])
    ∧ getAttr Map.init.state "stroke_color" = some .null
    ∧ getAttr Map.init.state "default_color" = some .null
    ∧ getAttr Map.init.state "color" = some (.map [])
    ∧ getAttr Map.init.state "color_scale" = some .null
    ∧ getAttr Map.init.state "enable_select" = some (.bool true)
    ∧ getAttr Map.init.state "selected" = some (.seq [])
    ∧ getAttr Map.init.state "selected_styles"
      = some (.map [("selected_fill", .str "Red"), ("selected_stroke", .null),
                    ("selected_stroke_width", .num 5)])
    ∧ getAttr Map.init.state "axis" = some .null
    ∧ getAttr Map.init.state "tooltip_color" = some (.str "White")
    ∧ getAttr Map.init.state "display_tooltip" = some (.bool true)
    ∧ getAttr Map.init.state "text_data" = some (.map [])
    ∧ getAttr Map.init.state "text_color" = some (.str "Black")
    ∧ getAttr Map.init.state "tooltip_format" = some (.str ".2f")
    ∧ getAttr Map.init.state "tooltip_widget" = some .null
    ∧ getAttr Map.init.state "map_data"
      = some (.pair "worldmap" "nbextensions/bqplot/WorldMapData") := by
  decide

/-- Claim C8: every one of the twenty declared configuration fields carries
the synchronized flag; the flag is part of the fixed declaration table, so
it holds in every reachable widget state. -/
theorem C8_all_synchronized :
    mapFields.length = 20 ∧ mapFields.all (fun f => f.synchronized) = true := by
  decide

/-- Claim C9: delivering a message without an `event` key invokes neither
dispatcher and raises no error: the handler reads the event field with
default the empty string, which matches neither click nor hover. -/
theorem C9_missing_event_key (w : Widget) (content : Content)
    (h : List.lookup "event" (content : List (String × Value)) = none) :
    w.handle_button_msg content = (w, []) := by
  have hget : Content.get content "event" (.str "") = Value.str "" := by
    unfold Content.get
    rw [h]
  simp [Widget.handle_button_msg, hget]

theorem C9_missing_event_key_witness :
    (Map.init.on_hover 5 false).handle_button_msg [("id", Value.str "FRA")]
      = (Map.init.on_hover 5 false, []) :=
  C9_missing_event_key (Map.init.on_hover 5 false) [("id", Value.str "FRA")] (by decide)

/-- Claim C4: delivering a message whose event field is neither click nor
hover invokes no callback of either dispatcher, raises no error, and leaves
the widget unchanged. -/
theorem C4_unknown_event (w : Widget) (content : Content)
    (h1 : Content.get content "event" (.str "") ≠ Value.str "click")
    (h2 : Content.get content "event" (.str "") ≠ Value.str "hover") :
    w.handle_button_msg content = (w, []) := by
  simp [Widget.handle_button_msg, if_neg h1, if_neg h2]

theorem C4_unknown_event_witness :
    ((Map.init.on_ctrl_click 1 false).on_hover 2 false).handle_button_msg
        [("event", Value.str "zoom")]
      = ((Map.init.on_ctrl_click 1 false).on_hover 2 false, []) :=
  C4_unknown_event ((Map.init.on_ctrl_click 1 false).on_hover 2 false)
    [("event", Value.str "zoom")] (by decide) (by decide)

/-- Claim C10: `on_ctrl_click` and `on_hover` mutate only the corresponding
dispatcher's callback list; the configuration state and the other
dispatcher are unchanged. -/
theorem C10_registration_frame (w : Widget) (cb : Callback) (r : Bool) :
    ((w.on_ctrl_click cb r).state = w.state
      ∧ (w.on_ctrl_click cb r).hover_handlers = w.hover_handlers
      ∧ (w.on_ctrl_click cb r).ctrl_click_handlers
          = w.ctrl_click_handlers.register_callback cb r)
    ∧ ((w.on_hover cb r).state = w.state
      ∧ (w.on_hover cb r).ctrl_click_handlers = w.ctrl_click_handlers
      ∧ (w.on_hover cb r).hover_handlers
          = w.hover_handlers.register_callback cb r) :=
  ⟨⟨rfl, rfl, rfl⟩, ⟨rfl, rfl, rfl⟩⟩

/-- Claim C6: after registering callbacks in order c1..cN, one dispatch
invokes them in exactly that order, each exactly once, producing the trace
in registration order; dispatch is a plain function, so the invocations are
synchronous in the model. -/
theorem C6_dispatch_order {α : Type} (cs : List Callback) (src : α)
    (payload : List (String × Value)) :
    (registerAll cs).callbacks = cs
    ∧ (registerAll cs).dispatch src payload
        = cs.map (fun cb => (cb, src, payload)) := by
  have h : (registerAll cs).callbacks = cs := by
    unfold registerAll
    rw [foldl_register_append]
    rfl
  exact ⟨h, by simp [CallbackDispatcher.dispatch, h]⟩

/-- Claim C1, counterexample: on a widget with callback 1 registered for
ctrl-click and callback 2 for hover, delivering the click message invokes
exactly callback 1, but it receives the whole content dictionary with the
event entry still present, not the payload with the event key stripped. -/
theorem C1_payload_not_stripped :
    ((Map.init.on_ctrl_click 1 false).on_hover 2 false).handle_button_msg clickMsg
      = ((Map.init.on_ctrl_click 1 false).on_hover 2 false,
         [(1, (Map.init.on_ctrl_click 1 false).on_hover 2 false,
             [("event", Value.str "click"), ("id", Value.str "FRA")])])
    ∧ (clickMsg : List (String × Value)) ≠ [("id", Value.str "FRA")] := by
  exact ⟨by decide, by decide⟩

/-- Claim C1, amended: delivering a message whose event field equals click
invokes every ctrl-click callback in registration order and no hover
callback, each invoked callback receiving the widget and the full content
dictionary unchanged (the event key is not stripped). -/
theorem C1_click_routing (w : Widget) (content : Content)
    (h : Content.get content "event" (.str "") = Value.str "click") :
    w.handle_button_msg content
      = (w, w.ctrl_click_handlers.callbacks.map
            (fun cb => (cb, w, (content : List (String × Value))))) := by
  have hne : Content.get content "event" (.str "") ≠ Value.str "hover" := by
    rw [h]
    decide
  simp [Widget.handle_button_msg, CallbackDispatcher.dispatch, if_pos h, if_neg hne]

theorem C1_click_routing_witness :
    ((Map.init.on_ctrl_click 3 false).on_ctrl_click 4 false).handle_button_msg clickMsg
      = (((Map.init.on_ctrl_click 3 false).on_ctrl_click 4 false),
         [(3, (Map.init.on_ctrl_click 3 false).on_ctrl_click 4 false,
             (clickMsg : List (String × Value))),
          (4, (Map.init.on_ctrl_click 3 false).on_ctrl_click 4 false,
             (clickMsg : List (String × Value)))]) := by
  rw [C1_click_routing ((Map.init.on_ctrl_click 3 false).on_ctrl_click 4 false)
        clickMsg (by decide)]
  rfl

/-- Claim C2, counterexample: after registering a single callback 5 via
on_hover, delivering the hover message invokes callback 5 exactly once, but
with the full content dictionary including the event entry, not with the
payload restricted to the id entry. -/
theorem C2_payload_not_stripped :
    (Map.init.on_hover 5 false).handle_button_msg hoverMsg
      = (Map.init.on_hover 5 false,
         [(5, Map.init.on_hover 5 false,
             [("event", Value.str "hover"), ("id", Value.str "ESP")])])
    ∧ (hoverMsg : List (String × Value)) ≠ [("id", Value.str "ESP")] := by
  exact ⟨by decide, by decide⟩

/-- Claim C2, amended: delivering a message whose event field equals hover
invokes every hover callback in registration order and no ctrl-click
callback, each invoked callback receiving the widget and the full content
dictionary unchanged; with a single registered hover callback it is invoked
exactly once. -/
theorem C2_hover_routing (w : Widget) (content : Content)
    (h : Content.get content "event" (.str "") = Value.str "hover") :
    w.handle_button_msg content
      = (w, w.hover_handlers.callbacks.map
            (fun cb => (cb, w, (content : List (String × Value))))) := by
  have hne : Content.get content "event" (.str "") ≠ Value.str "click" := by
    rw [h]
    decide
  simp [Widget.handle_button_msg, CallbackDispatcher.dispatch, if_neg hne, if_pos h]

theorem C2_hover_routing_witness :
    (Map.init.on_hover 6 false).handle_button_msg hoverMsg
      = (Map.init.on_hover 6 false,
         [(6, Map.init.on_hover 6 false, (hoverMsg : List (String × Value)))]) := by
  rw [C2_hover_routing (Map.init.on_hover 6 false) hoverMsg (by decide)]
  rfl

/-- Claim C5, counterexample: on a dispatcher holding two registrations of
the same callback, removing that callback twice in a row is not a no-op the
second time: the second removal deletes the remaining occurrence. -/
theorem C5_double_remove_not_noop :
    ¬ (((⟨[7, 7]⟩ : CallbackDispatcher).register_callback 7 true).register_callback 7 true
        = (⟨[7, 7]⟩ : CallbackDispatcher).register_callback 7 true) := by
  decide

/-- Claim C5, amended: any register/remove sequence on a dispatcher equals
its simulation on an ordered sequence (append on register, remove first
occurrence on remove); removing an absent callback is a silent no-op; and
removing the same handle twice in a row leaves the dispatcher unchanged the
second time provided the handle occurred at most once before the first
removal (with duplicates, each removal deletes one further occurrence). -/
theorem C5_register_remove (ops : List (Callback × Bool)) (d : CallbackDispatcher) :
    (applyOps d ops).callbacks = simOps d.callbacks ops
    ∧ (∀ c : Callback, c ∉ d.callbacks → d.register_callback c true = d)
    ∧ (∀ c : Callback, d.callbacks.count c ≤ 1 →
        (d.register_callback c true).register_callback c true
          = d.register_callback c true) := by
  refine ⟨?_, ?_, ?_⟩
  · induction ops generalizing d with
    | nil => rfl
    | cons op rest ih =>
      rw [applyOps, simOps, ih]
      cases hop : op.2 <;> simp [CallbackDispatcher.register_callback, hop]
  · intro c hc
    simp [CallbackDispatcher.register_callback, List.erase_of_not_mem hc]
  · intro c hcount
    have hzero : (d.callbacks.erase c).count c = 0 := by
      rw [List.count_erase_self]
      omega
    have habs : c ∉ d.callbacks.erase c := by
      rw [← List.count_eq_zero]
      exact hzero
    simp [CallbackDispatcher.register_callback, List.erase_of_not_mem habs]

theorem C5_register_remove_witness :
    ((⟨[3]⟩ : CallbackDispatcher).register_callback 3 true).register_callback 3 true
      = (⟨[3]⟩ : CallbackDispatcher).register_callback 3 true :=
  (C5_register_remove [] ⟨[3]⟩).2.2 3 (by decide)

/-- Claim C7: for every declared configuration field, `set` succeeds exactly
when the value's runtime kind agrees with the declared kind or the value is
null on a nullable field, fails with `InvalidFieldKind` otherwise (the
error surfaces to the caller as the returned error value), and the nullable
fields are exactly the seven listed in the claim; no other validation is
performed. -/
theorem C7_set_validation (name : String) (f : ConfigField)
    (hf : mapFields.find? (fun g => g.name == name) = some f)
    (s : WidgetState) (v : Value) :
    ((∃ t, setAttr s name v = .ok t) ↔
      (kindMatches f.kind v = true ∨ (v = .null ∧ f.nullable = true)))
    ∧ (¬ (kindMatches f.kind v = true ∨ (v = .null ∧ f.nullable = true)) →
        setAttr s name v = .error .invalidFieldKind)
    ∧ (f.nullable = true ↔
        f.name ∈ ["hovered_styles", "stroke_color", "default_color", "color_scale",
                  "selected_styles", "axis", "tooltip_widget"]) := by
  have hmem : f ∈ mapFields := List.mem_of_find?_eq_some hf
  have hcond : (kindMatches f.kind v || (v == .null && f.nullable)) = true ↔
      (kindMatches f.kind v = true ∨ (v = .null ∧ f.nullable = true)) := by
    simp [Bool.or_eq_true, Bool.and_eq_true, beq_iff_eq]
  have hset : setAttr s name v =
      if (kindMatches f.kind v || (v == .null && f.nullable)) = true then
        .ok ((s : List (String × Value)).map (fun p => if p.1 == name then (p.1, v) else p))
      else .error .invalidFieldKind := by
    unfold setAttr
    rw [hf]
  refine ⟨?_, ?_, nullable_fields_characterization f hmem⟩
  · rw [hset]
    by_cases hc : (kindMatches f.kind v || (v == .null && f.nullable)) = true
    · rw [if_pos hc]
      exact iff_of_true ⟨_, rfl⟩ (hcond.mp hc)
    · rw [if_neg hc]
      exact iff_of_false (by simp) (fun hp => hc (hcond.mpr hp))
  · intro hp
    rw [hset, if_neg (fun hc => hp (hcond.mp hc))]

theorem C7_set_validation_witness :
    (∃ t, setAttr initState "min_width" (Value.num 5) = .ok t)
    ∧ setAttr initState "min_width" (Value.str "wide") = .error .invalidFieldKind := by
  constructor
  · exact ((C7_set_validation "min_width" ⟨"min_width", .number, false, .num 800, true⟩
      (by decide) initState (Value.num 5)).1).mpr (Or.inl (by decide))
  · exact (C7_set_validation "min_width" ⟨"min_width", .number, false, .num 800, true⟩
      (by decide) initState (Value.str "wide")).2.1 (by decide)

end BqplotMap
